import Mathlib

/-!
Shallow embedding of the library-management service layer
(`services/library_service.py`, `services/payment_service.py`).

Conventions:
* Python `datetime` values are rationals (days since an arbitrary epoch);
  `timedelta.days` is the floor of the difference in days.
* Money amounts are rationals measured in dollars.  Every fee produced by the
  code is an integer number of cents, so Python's `round(x, 2)` is modelled by
  rounding `x * 100` to an integer (the tie-breaking convention is irrelevant
  on the values that actually occur).
* The data-access module `database` is not part of the service sources; its
  operations are modelled from the specification's interface list (each such
  definition carries a `Modelled from the spec:` comment).
-/

namespace LibraryMS

/-- Python `round(x, 2)`: round to cents.  All fees in this system are exact
multiples of one cent, where every rounding convention agrees. -/
def roundCents (q : ℚ) : ℚ := (round (q * 100) : ℤ) / 100

/-- Python `str.isdigit()` restricted to ASCII digits, combined with the
truthiness test `not s` used by the validators: true iff `s` is nonempty and
all characters are digits. -/
def isDigits (s : String) : Bool := s ≠ "" && s.data.all Char.isDigit

/-- The patron-id validation used verbatim by every service function:
`not patron_id or not patron_id.isdigit() or len(patron_id) != 6`. -/
def invalidPatron (patron_id : String) : Bool :=
  patron_id = "" || !(isDigits patron_id) || patron_id.length ≠ 6

/-- A row of the `books` table. -/
structure Book where
  id : Int
  title : String
  author : String
  isbn : String
  total_copies : Int
  available_copies : Int
deriving Repr, DecidableEq

/-- A row of the `borrow_records` table.  `return_date = none` means the
record is still open ("currently borrowed"). -/
structure BorrowRecord where
  patron_id : String
  book_id : Int
  borrow_date : ℚ
  due_date : ℚ
  return_date : Option ℚ
deriving Repr, DecidableEq

/-- The relational store: book rows, borrow-record rows, and the next fresh
book id the insertion primitive will assign. -/
structure LibraryState where
  books : List Book
  records : List BorrowRecord
  next_id : Int
deriving Repr, DecidableEq

/-- Modelled from the spec: store primitive `book_by_id(id)` — the book row
with the given id, if any. -/
def get_book_by_id (s : LibraryState) (book_id : Int) : Option Book :=
  s.books.find? (fun b => b.id = book_id)

/-- Modelled from the spec: store primitive `book_by_isbn(isbn)`. -/
def get_book_by_isbn (s : LibraryState) (isbn : String) : Option Book :=
  s.books.find? (fun b => b.isbn = isbn)

/-- Modelled from the spec: store primitive `insert_book(...)` — stores a new
book row under a fresh id; in the model the insertion itself always
succeeds. -/
def insert_book (s : LibraryState) (title author isbn : String)
    (total available : Int) : LibraryState × Bool :=
  ({ books := s.books ++
        [{ id := s.next_id, title := title, author := author, isbn := isbn,
           total_copies := total, available_copies := available }],
     records := s.records, next_id := s.next_id + 1 }, true)

/-- Modelled from the spec: store primitive `patron_borrow_count(patron_id)` —
count of unreturned records of the patron. -/
def get_patron_borrow_count (s : LibraryState) (patron_id : String) : Nat :=
  (s.records.filter
    (fun r => r.patron_id = patron_id && r.return_date = none)).length

/-- Modelled from the spec: store primitive `patron_borrowed_books(patron_id)`
— the patron's unreturned records, in insertion order. -/
def get_patron_borrowed_books (s : LibraryState) (patron_id : String) :
    List BorrowRecord :=
  s.records.filter (fun r => r.patron_id = patron_id && r.return_date = none)

/-- Modelled from the spec: the store flags each fetched record overdue or
not; a record is overdue when its due date lies before the current time. -/
def record_is_overdue (now : ℚ) (r : BorrowRecord) : Bool := r.due_date < now

/-- Modelled from the spec: store primitive
`update_book_availability(id, delta)` — adds `delta` to the availability of
the matching book row; fails when no such book exists. -/
def update_book_availability (s : LibraryState) (book_id delta : Int) :
    LibraryState × Bool :=
  if s.books.any (fun b => b.id = book_id) then
    ({ s with books := s.books.map (fun b =>
        if b.id = book_id then
          { b with available_copies := b.available_copies + delta }
        else b) }, true)
  else (s, false)

/-- Modelled from the spec: store primitive `insert_borrow_record(...)` —
appends an open borrow record; always succeeds in the model. -/
def insert_borrow_record (s : LibraryState) (patron_id : String)
    (book_id : Int) (borrow_date due_date : ℚ) : LibraryState × Bool :=
  ({ s with records := s.records ++
      [{ patron_id := patron_id, book_id := book_id,
         borrow_date := borrow_date, due_date := due_date,
         return_date := none }] }, true)

/-- Close the first open record of the given patron and book. -/
def closeFirst : List BorrowRecord → String → Int → ℚ → List BorrowRecord
  | [], _, _, _ => []
  | r :: rs, p, bid, d =>
    if r.patron_id = p ∧ r.book_id = bid ∧ r.return_date = none then
      { r with return_date := some d } :: rs
    else r :: closeFirst rs p bid d

/-- Modelled from the spec: store primitive
`set_return_date(patron_id, book_id, date)` — sets the return timestamp of
the matching unreturned record; fails when no such record exists. -/
def update_borrow_record_return_date (s : LibraryState) (patron_id : String)
    (book_id : Int) (d : ℚ) : LibraryState × Bool :=
  if s.records.any (fun r =>
      r.patron_id = patron_id && r.book_id = book_id &&
      r.return_date = none) then
    ({ s with records := closeFirst s.records patron_id book_id d }, true)
  else (s, false)

/-- Drop whitespace from both ends of a character list. -/
def stripChars (l : List Char) : List Char :=
  ((l.dropWhile Char.isWhitespace).reverse.dropWhile Char.isWhitespace).reverse

/-- Python `str.strip()`: remove leading and trailing whitespace. -/
def pyStrip (s : String) : String := ⟨stripChars s.data⟩

/-- `add_book_to_catalog(title, author, isbn, total_copies)`
(library_service.py lines 14-57).  Dynamic-typing caveat: `total_copies` is
typed here, so the `isinstance(total_copies, int)` half of the check is
vacuous and only `total_copies <= 0` remains. -/
def add_book_to_catalog (s : LibraryState) (title author isbn : String)
    (total_copies : Int) : LibraryState × Bool × String :=
  if title = "" ∨ pyStrip title = "" then
    (s, false, "Title is required.")
  else if (pyStrip title).length > 200 then
    (s, false, "Title must be less than 200 characters.")
  else if author = "" ∨ pyStrip author = "" then
    (s, false, "Author is required.")
  else if (pyStrip author).length > 100 then
    (s, false, "Author must be less than 100 characters.")
  else if isbn.length ≠ 13 ∨ ¬ isDigits isbn then
    (s, false, "ISBN must be exactly 13 digits.")
  else if total_copies ≤ 0 then
    (s, false, "Total copies must be a positive integer.")
  else if (get_book_by_isbn s isbn).isSome then
    (s, false, "A book with this ISBN already exists.")
  else
    let (s1, ok) := insert_book s (pyStrip title) (pyStrip author) isbn
        total_copies total_copies
    if ok then
      (s1, true, "Book \"" ++ pyStrip title ++
        "\" has been successfully added to the catalog.")
    else
      (s1, false, "Database error occurred while adding the book.")

/-- Stand-in for `strftime("%Y-%m-%d")`; no claim depends on the rendering of
a date inside a success message. -/
def fmtDate (t : ℚ) : String := toString t

/-- `borrow_book_by_patron(patron_id, book_id)`
(library_service.py lines 59-102); `now` is the value of `datetime.now()`. -/
def borrow_book_by_patron (s : LibraryState) (now : ℚ) (patron_id : String)
    (book_id : Int) : LibraryState × Bool × String :=
  if invalidPatron patron_id then
    (s, false, "Invalid patron ID. Must be exactly 6 digits.")
  else
    match get_book_by_id s book_id with
    | none => (s, false, "Book not found.")
    | some book =>
      if book.available_copies ≤ 0 then
        (s, false, "This book is currently not available.")
      else if get_patron_borrow_count s patron_id ≥ 5 then
        (s, false, "You have reached the maximum borrowing limit of 5 books.")
      else
        let borrow_date := now
        let due_date := borrow_date + 14
        let (s1, ok1) := insert_borrow_record s patron_id book_id
            borrow_date due_date
        if ¬ ok1 then
          (s1, false, "Database error occurred while creating borrow record.")
        else
          let (s2, ok2) := update_book_availability s1 book_id (-1)
          if ¬ ok2 then
            (s2, false,
              "Database error occurred while updating book availability.")
          else
            (s2, true, "Successfully borrowed \"" ++ book.title ++
              "\". Due date: " ++ fmtDate due_date ++ ".")

/-- `return_book_by_patron(patron_id, book_id)`
(library_service.py lines 104-137). -/
def return_book_by_patron (s : LibraryState) (now : ℚ) (patron_id : String)
    (book_id : Int) : LibraryState × Bool × String :=
  if invalidPatron patron_id then
    (s, false, "Invalid patron ID. Must be exactly 6 digits.")
  else
    match get_book_by_id s book_id with
    | none => (s, false, "Book not found.")
    | some book =>
      match (get_patron_borrowed_books s patron_id).find?
          (fun r => r.book_id = book_id) with
      | none => (s, false, "No borrowing record found for this patron and book.")
      | some _ =>
        let return_date := now
        let (s1, ok1) := update_borrow_record_return_date s patron_id
            book_id return_date
        if ¬ ok1 then
          (s1, false, "Database error occurred while updating return date.")
        else
          let (s2, ok2) := update_book_availability s1 book_id 1
          if ¬ ok2 then
            (s2, false,
              "Database error occurred while updating book availability.")
          else
            (s2, true, "Successfully returned \"" ++ book.title ++
              "\". Return date: " ++ fmtDate return_date ++ ".")

/-- The mapping returned by `calculate_late_fee_for_book`. -/
structure FeeResult where
  fee_amount : ℚ
  days_overdue : Int
  status : String
deriving Repr, DecidableEq

/-- The fee block of `calculate_late_fee_for_book`
(library_service.py lines 182-198) applied to the borrow record it found:
`days_overdue = max(0, (now - due_date).days)`, then the tiered schedule,
the $15 cap and `round(fee, 2)`. -/
def calcRecordFee (now : ℚ) (r : BorrowRecord) : FeeResult :=
  let days_overdue : Int := max 0 ⌊now - r.due_date⌋
  let fee_amount : ℚ :=
    if days_overdue > 0 then
      min (if days_overdue ≤ 7 then (days_overdue : ℚ) * (1/2)
           else 7 * (1/2) + ((days_overdue : ℚ) - 7) * 1) 15
    else 0
  { fee_amount := roundCents fee_amount,
    days_overdue := days_overdue,
    status := if days_overdue = 0 then "Success"
              else "Overdue by " ++ toString days_overdue ++ " days" }

/-- `calculate_late_fee_for_book(patron_id, book_id)`
(library_service.py lines 139-199). -/
def calculate_late_fee_for_book (s : LibraryState) (now : ℚ)
    (patron_id : String) (book_id : Int) : FeeResult :=
  if invalidPatron patron_id then
    { fee_amount := 0, days_overdue := 0,
      status := "Invalid patron ID. Must be exactly 6 digits." }
  else
    match get_book_by_id s book_id with
    | none => { fee_amount := 0, days_overdue := 0, status := "Book not found." }
    | some _ =>
      match (get_patron_borrowed_books s patron_id).find?
          (fun r => r.book_id = book_id) with
      | none =>
        { fee_amount := 0, days_overdue := 0,
          status := "No active borrowing record found." }
      | some borrow_record => calcRecordFee now borrow_record

/-- The per-record fee computed inside `get_patron_status_report`
(library_service.py lines 252-257) for a record flagged overdue:
`days_overdue = (now - due_date).days` (no clamp at 0), then the same tiered
schedule and $15 cap, with no per-record rounding. -/
def reportRecordFee (now : ℚ) (r : BorrowRecord) : ℚ :=
  let days_overdue : Int := ⌊now - r.due_date⌋
  let late_fee : ℚ :=
    if days_overdue ≤ 7 then (days_overdue : ℚ) * (1/2)
    else 7 * (1/2) + ((days_overdue : ℚ) - 7) * 1
  min late_fee 15

/-- The `total_late_fees` aggregate of `get_patron_status_report`
(library_service.py lines 249-258, 285): the per-record fees of the
patron's overdue unreturned records, summed and rounded. -/
def report_total_late_fees (s : LibraryState) (now : ℚ)
    (patron_id : String) : ℚ :=
  roundCents ((((get_patron_borrowed_books s patron_id).filter
      (fun r => record_is_overdue now r)).map (reportRecordFee now)).sum)

/-- A Python mapping as returned by a payment gateway: the four keys the
payment code ever reads, each possibly absent. -/
structure RespDict where
  status : Option String
  reason : Option String
  transaction_id : Option String
  refund_id : Option String
deriving Repr, DecidableEq

/-- A Python value produced by a gateway call: a mapping, a falsy non-mapping
(such as `None`), or a truthy non-mapping (on which `.get` raises
`AttributeError`). -/
inductive GatewayResp
  | dict (d : RespDict)
  | falsy
  | truthyNonDict
deriving Repr, DecidableEq

/-- One gateway call either returns a value or raises. -/
inductive GatewayAct
  | ret (r : GatewayResp)
  | raise (e : String)
deriving Repr, DecidableEq

/-- Result of `pay_late_fees`: `(True, "No late fees")`, the success mapping,
`(False, message)` where the message may be Python `None`, or an uncaught
exception escaping the function. -/
inductive PayOutcome
  | okMsg (msg : String)
  | okDict (transaction_id : String) (charged : ℚ) (days_overdue : Int)
  | fail (msg : Option String)
  | raised (e : String)
deriving Repr, DecidableEq

/-- Gateway-response handling of `pay_late_fees`
(library_service.py lines 308-310).  For a mapping `resp` the test
`not resp or resp.get("status") != "success"` collapses to
`resp.get("status") != "success"`, because an empty (falsy) mapping has no
`status` key; the failure message is then `resp.get("reason")`, i.e. `None`
when the key is absent.  A falsy non-mapping takes the `not resp` branch and
fails the `isinstance(resp, dict)` test, giving the literal message
`"Payment failed"`; on a truthy non-mapping `.get` raises `AttributeError`,
which nothing catches.  On success, `resp["transaction_id"]` raises
`KeyError` when the key is absent. -/
def handlePaymentResp (resp : GatewayResp) (fee : ℚ) (days : Int) :
    PayOutcome :=
  match resp with
  | .truthyNonDict => .raised "AttributeError"
  | .falsy => .fail (some "Payment failed")
  | .dict d =>
    if d.status = some "success" then
      match d.transaction_id with
      | some t => .okDict t (roundCents fee) days
      | none => .raised "KeyError"
    else .fail d.reason

/-- `pay_late_fees` up to (but excluding) the gateway call
(library_service.py lines 291-303): `Sum.inl` is an early return that never
invokes the gateway; `Sum.inr (fee, days)` means `process_payment(patron_id,
fee)` is invoked next. -/
def pay_late_fees_pre (s : LibraryState) (now : ℚ) (patron_id : String)
    (book_id : Int) : PayOutcome ⊕ (ℚ × Int) :=
  if invalidPatron patron_id then
    .inl (.fail (some "Invalid patron ID"))
  else
    match get_book_by_id s book_id with
    | none => .inl (.fail (some "Book not found"))
    | some _ =>
      let r := calculate_late_fee_for_book s now patron_id book_id
      if r.status = "Book not found." ∨
         r.status = "No active borrowing record found." then
        .inl (.fail (some r.status))
      else if r.fee_amount ≤ 0 then
        .inl (.okMsg "No late fees")
      else
        .inr (r.fee_amount, r.days_overdue)

/-- `pay_late_fees(patron_id, book_id, payment_gateway)`
(library_service.py lines 291-310).  The function performs no store writes,
so the state it returns is the state it was given. -/
def pay_late_fees (s : LibraryState) (now : ℚ) (patron_id : String)
    (book_id : Int) (gw : String → ℚ → GatewayAct) :
    LibraryState × PayOutcome :=
  match pay_late_fees_pre s now patron_id book_id with
  | .inl out => (s, out)
  | .inr (fee, days) =>
    match gw patron_id fee with
    | .raise e => (s, .fail (some ("Payment exception: " ++ e)))
    | .ret resp => (s, handlePaymentResp resp fee days)

/-- A Python value passed as `transaction_id`: a string or a non-string. -/
inductive PyTxn
  | str (s : String)
  | nonStr
deriving Repr, DecidableEq

/-- A Python value passed as `amount`: either `float(amount)` yields a
number, or `float(amount)` raises (modelled as `unparseable`). -/
inductive PyAmount
  | num (q : ℚ)
  | unparseable
deriving Repr, DecidableEq

/-- Result of `refund_late_fee_payment`. -/
inductive RefundOutcome
  | okDict (refund_id : String) (refunded : ℚ)
  | fail (msg : Option String)
  | raised (e : String)
deriving Repr, DecidableEq

/-- Gateway-response handling of `refund_late_fee_payment`
(library_service.py lines 325-327); the same collapse of
`not resp or resp.get("status") != "refunded"` as in `handlePaymentResp`
applies. -/
def handleRefundResp (resp : GatewayResp) (amt : ℚ) : RefundOutcome :=
  match resp with
  | .truthyNonDict => .raised "AttributeError"
  | .falsy => .fail (some "Refund failed")
  | .dict d =>
    if d.status = some "refunded" then
      match d.refund_id with
      | some rid => .okDict rid (roundCents amt)
      | none => .raised "KeyError"
    else .fail d.reason

/-- `refund_late_fee_payment` up to (but excluding) the gateway call
(library_service.py lines 312-320): `Sum.inl` is an early validation
failure; `Sum.inr amt` means `refund_payment(transaction_id, amt)` is
invoked next.  `not transaction_id or not isinstance(transaction_id, str)`
rejects the empty string and every non-string. -/
def refund_pre (transaction_id : PyTxn) (amount : PyAmount) :
    RefundOutcome ⊕ (String × ℚ) :=
  match transaction_id with
  | .nonStr => .inl (.fail (some "Invalid transaction"))
  | .str ts =>
    if ts = "" then .inl (.fail (some "Invalid transaction"))
    else
      match amount with
      | .unparseable => .inl (.fail (some "Invalid amount"))
      | .num amt =>
        if amt ≤ 0 ∨ amt > 15 then
          .inl (.fail (some "Amount must be >0 and â‰¤15"))
        else .inr (ts, amt)

/-- `refund_late_fee_payment(transaction_id, amount, payment_gateway)`
(library_service.py lines 312-327).  The function performs no store
operations at all; the state is threaded unchanged. -/
def refund_late_fee_payment (s : LibraryState) (transaction_id : PyTxn)
    (amount : PyAmount) (gw : String → ℚ → GatewayAct) :
    LibraryState × RefundOutcome :=
  match refund_pre transaction_id amount with
  | .inl out => (s, out)
  | .inr (ts, amt) =>
    match gw ts amt with
    | .raise e => (s, .fail (some ("Refund exception: " ++ e)))
    | .ret resp => (s, handleRefundResp resp amt)

/-! ## Derived notions and helper lemmas -/

/-- Number of unreturned borrow records of a given book. -/
def unreturnedCount (recs : List BorrowRecord) (bid : Int) : Nat :=
  (recs.filter (fun r => r.book_id = bid && r.return_date = none)).length

/-- The spec's availability invariant:
`available_copies = total_copies - count(unreturned BorrowRecords)` for every
book in the store. -/
def availabilityInvariant (s : LibraryState) : Prop :=
  ∀ b ∈ s.books,
    b.available_copies = b.total_copies - (unreturnedCount s.records b.id : ℤ)

theorem strne_of_head (p : String) (c : Char) (ps : List Char)
    (hp : p.data = c :: ps) (q : String) (hq : q.data.head? ≠ some c)
    (x : String) : p ++ x ≠ q := by
  intro h
  apply hq
  rw [← h, String.data_append, hp]
  rfl

theorem overdue_ne_bnf (x : String) :
    ("Overdue by " ++ x ++ " days") ≠ "Book not found." := by
  rw [String.append_assoc]
  exact strne_of_head "Overdue by " 'O' _ rfl _ (by decide) _

theorem overdue_ne_noactive (x : String) :
    ("Overdue by " ++ x ++ " days") ≠ "No active borrowing record found." := by
  rw [String.append_assoc]
  exact strne_of_head "Overdue by " 'O' _ rfl _ (by decide) _

theorem roundCents_int_div (n : ℤ) :
    roundCents ((n : ℚ) / 100) = (n : ℚ) / 100 := by
  unfold roundCents
  rw [div_mul_cancel₀ _ (by norm_num : (100 : ℚ) ≠ 0), round_intCast]

theorem roundCents_zero : roundCents 0 = 0 := by
  have h := roundCents_int_div 0
  simpa using h

theorem min_cents (a b : ℤ) :
    min ((a : ℚ) / 100) ((b : ℚ) / 100) = ((min a b : ℤ) : ℚ) / 100 := by
  rw [min_div_div_right (by norm_num : (0 : ℚ) ≤ 100)]
  norm_cast

/-- Rounding to cents is the identity on every value the tiered fee schedule
can produce. -/
theorem roundCents_tier (d : ℤ) :
    roundCents (min (if d ≤ 7 then (d : ℚ) * (1/2)
        else 7 * (1/2) + ((d : ℚ) - 7) * 1) 15) =
      min (if d ≤ 7 then (d : ℚ) * (1/2)
        else 7 * (1/2) + ((d : ℚ) - 7) * 1) 15 := by
  split_ifs with hd
  · rw [show ((d : ℚ) * (1/2)) = ((50 * d : ℤ) : ℚ) / 100 by push_cast; ring,
      show (15 : ℚ) = ((1500 : ℤ) : ℚ) / 100 by norm_num,
      min_cents, roundCents_int_div]
  · rw [show ((7 : ℚ) * (1/2) + ((d : ℚ) - 7) * 1) =
        ((100 * d - 350 : ℤ) : ℚ) / 100 by push_cast; ring,
      show (15 : ℚ) = ((1500 : ℤ) : ℚ) / 100 by norm_num,
      min_cents, roundCents_int_div]

/-- Characterisation of the fee block on a record that is not post-dated:
the clamp at 0 is inert and the rounding is the identity. -/
theorem calcRecordFee_eq (now : ℚ) (r : BorrowRecord)
    (h : 0 ≤ ⌊now - r.due_date⌋) :
    calcRecordFee now r =
      { fee_amount := min (if ⌊now - r.due_date⌋ ≤ 7 then
            ((⌊now - r.due_date⌋ : ℤ) : ℚ) * (1/2)
          else 7 * (1/2) + (((⌊now - r.due_date⌋ : ℤ) : ℚ) - 7) * 1) 15,
        days_overdue := ⌊now - r.due_date⌋,
        status := if ⌊now - r.due_date⌋ = 0 then "Success"
          else "Overdue by " ++ toString ⌊now - r.due_date⌋ ++ " days" } := by
  have hmax : max (0 : ℤ) ⌊now - r.due_date⌋ = ⌊now - r.due_date⌋ :=
    max_eq_right h
  simp only [calcRecordFee, hmax, FeeResult.mk.injEq]
  refine ⟨?_, trivial, trivial⟩
  rcases eq_or_lt_of_le h with h0 | h0
  · rw [if_neg (by omega : ¬ (⌊now - r.due_date⌋ > 0)), ← h0,
      if_pos (by norm_num : (0 : ℤ) ≤ 7), roundCents_zero]
    norm_num
  · rw [if_pos h0, roundCents_tier]

theorem calculate_eq_calcRecordFee (s : LibraryState) (now : ℚ)
    (p : String) (bid : Int) (book : Book) (rec : BorrowRecord)
    (hp : invalidPatron p = false)
    (hbook : get_book_by_id s bid = some book)
    (hfind : (get_patron_borrowed_books s p).find?
      (fun r => r.book_id = bid) = some rec) :
    calculate_late_fee_for_book s now p bid = calcRecordFee now rec := by
  unfold calculate_late_fee_for_book
  rw [hp, hbook, hfind]
  simp

theorem unreturnedCount_cons (x : BorrowRecord) (xs : List BorrowRecord)
    (bid : Int) :
    unreturnedCount (x :: xs) bid =
      (if x.book_id = bid ∧ x.return_date = none then 1 else 0) +
        unreturnedCount xs bid := by
  unfold unreturnedCount
  rw [List.filter_cons]
  by_cases h : x.book_id = bid ∧ x.return_date = none
  · rw [if_pos (by simp [h.1, h.2]), if_pos h, List.length_cons]
    omega
  · rw [if_neg (by simpa using h), if_neg h]
    omega

theorem unreturnedCount_append (l : List BorrowRecord) (nr : BorrowRecord)
    (bid : Int) :
    unreturnedCount (l ++ [nr]) bid =
      unreturnedCount l bid +
        (if nr.book_id = bid ∧ nr.return_date = none then 1 else 0) := by
  unfold unreturnedCount
  rw [List.filter_append, List.length_append, List.filter_cons]
  split_ifs with h h2 h2 <;> simp_all

theorem closeFirst_count_other (l : List BorrowRecord) (p : String)
    (bid bid' : Int) (d : ℚ) (hne : bid ≠ bid') :
    unreturnedCount (closeFirst l p bid d) bid' = unreturnedCount l bid' := by
  induction l with
  | nil => rfl
  | cons r rs ih =>
    rw [closeFirst]
    split_ifs with h
    · rw [unreturnedCount_cons, unreturnedCount_cons]
      have hr : ¬ (r.book_id = bid' ∧ r.return_date = none) := by
        rintro ⟨hb, _⟩
        exact hne (h.2.1 ▸ hb)
      rw [if_neg hr, if_neg (by simp)]
    · rw [unreturnedCount_cons, unreturnedCount_cons, ih]

theorem closeFirst_count (l : List BorrowRecord) (p : String) (bid : Int)
    (d : ℚ)
    (hex : ∃ r ∈ l, r.patron_id = p ∧ r.book_id = bid ∧ r.return_date = none) :
    unreturnedCount l bid = unreturnedCount (closeFirst l p bid d) bid + 1 := by
  induction l with
  | nil => simp at hex
  | cons r rs ih =>
    rw [closeFirst]
    split_ifs with h
    · rw [unreturnedCount_cons, unreturnedCount_cons,
        if_pos ⟨h.2.1, h.2.2⟩, if_neg (by simp)]
      omega
    · obtain ⟨r', hr', hprop⟩ := hex
      rcases List.mem_cons.mp hr' with rfl | hmem
      · exact absurd hprop h
      · rw [unreturnedCount_cons, unreturnedCount_cons, ih ⟨r', hmem, hprop⟩]
        omega

theorem closeFirst_no_match (l : List BorrowRecord) (p : String) (bid : Int)
    (d : ℚ)
    (hnone : ∀ r ∈ l, ¬ (r.patron_id = p ∧ r.book_id = bid ∧
      r.return_date = none)) :
    closeFirst l p bid d = l := by
  induction l with
  | nil => rfl
  | cons r rs ih =>
    rw [closeFirst, if_neg (hnone r (by simp)),
      ih (fun x hx => hnone x (by simp [hx]))]

theorem closeFirst_append (l : List BorrowRecord) (nr : BorrowRecord)
    (p : String) (bid : Int) (d : ℚ)
    (hnone : ∀ r ∈ l, ¬ (r.patron_id = p ∧ r.book_id = bid ∧
      r.return_date = none))
    (hm : nr.patron_id = p ∧ nr.book_id = bid ∧ nr.return_date = none) :
    closeFirst (l ++ [nr]) p bid d = l ++ [{ nr with return_date := some d }] := by
  induction l with
  | nil => simp [closeFirst, if_pos hm]
  | cons r rs ih =>
    rw [List.cons_append, closeFirst, if_neg (hnone r (by simp)),
      ih (fun x hx => hnone x (by simp [hx])), List.cons_append]

theorem any_id_of_get (s : LibraryState) (bid : Int) (book : Book)
    (hbook : get_book_by_id s bid = some book) :
    s.books.any (fun b => b.id = bid) = true := by
  unfold get_book_by_id at hbook
  have h1 := List.mem_of_find?_eq_some hbook
  have h2 := List.find?_some hbook
  exact List.any_eq_true.mpr ⟨book, h1, h2⟩

theorem find?_map_update (l : List Book) (bid delta : Int) (book : Book)
    (hbook : l.find? (fun b => b.id = bid) = some book) :
    (List.find? (fun b => b.id = bid) (l.map (fun b =>
        if b.id = bid then
          { b with available_copies := b.available_copies + delta }
        else b))) =
      some { book with available_copies := book.available_copies + delta } := by
  induction l with
  | nil => simp at hbook
  | cons b bs ih =>
    rw [List.map_cons]
    by_cases hid : b.id = bid
    · rw [List.find?_cons_of_pos _ (by simp [hid])] at hbook
      rw [List.find?_cons_of_pos _ (by simp [hid]), if_pos hid]
      simp only [Option.some.injEq] at hbook
      rw [← hbook]
    · rw [List.find?_cons_of_neg _ (by simp [hid])] at hbook
      rw [if_neg hid, List.find?_cons_of_neg _ (by simp [hid])]
      exact ih hbook

theorem get_book_by_id_map_update (s : LibraryState) (bid delta : Int)
    (book : Book) (hbook : get_book_by_id s bid = some book) :
    (List.find? (fun b => b.id = bid) (s.books.map (fun b =>
        if b.id = bid then
          { b with available_copies := b.available_copies + delta }
        else b))) =
      some { book with available_copies := book.available_copies + delta } := by
  unfold get_book_by_id at hbook
  exact find?_map_update s.books bid delta book hbook

theorem borrow_success_def (s : LibraryState) (now : ℚ) (p : String)
    (bid : Int) (book : Book)
    (hp : invalidPatron p = false)
    (hbook : get_book_by_id s bid = some book)
    (havail : ¬ book.available_copies ≤ 0)
    (hcount : ¬ 5 ≤ get_patron_borrow_count s p) :
    borrow_book_by_patron s now p bid =
      ({ books := s.books.map (fun b => if b.id = bid then
            { b with available_copies := b.available_copies + (-1) } else b),
         records := s.records ++
           [{ patron_id := p, book_id := bid, borrow_date := now,
              due_date := now + 14, return_date := none }],
         next_id := s.next_id }, true,
       "Successfully borrowed \"" ++ book.title ++ "\". Due date: " ++
         fmtDate (now + 14) ++ ".") := by
  unfold borrow_book_by_patron
  rw [hp, hbook]
  simp only [Bool.false_eq_true, if_false]
  rw [if_neg havail, if_neg hcount]
  simp [insert_borrow_record, update_book_availability,
    any_id_of_get s bid book hbook]

theorem borrow_success_inv (s : LibraryState) (now : ℚ) (p : String)
    (bid : Int) (h : (borrow_book_by_patron s now p bid).2.1 = true) :
    invalidPatron p = false ∧ ∃ book, get_book_by_id s bid = some book ∧
      ¬ book.available_copies ≤ 0 ∧ ¬ 5 ≤ get_patron_borrow_count s p := by
  unfold borrow_book_by_patron at h
  split at h
  · simp at h
  · rename_i hp
    split at h
    · simp at h
    · rename_i book hbook
      split at h
      · simp at h
      · rename_i havail
        split at h
        · simp at h
        · rename_i hcount
          exact ⟨by simpa using hp, book, hbook, havail, hcount⟩

theorem return_success_def (s : LibraryState) (now : ℚ) (p : String)
    (bid : Int) (book : Book) (rec : BorrowRecord)
    (hp : invalidPatron p = false)
    (hbook : get_book_by_id s bid = some book)
    (hfind : (get_patron_borrowed_books s p).find?
      (fun r => r.book_id = bid) = some rec) :
    return_book_by_patron s now p bid =
      ({ books := s.books.map (fun b => if b.id = bid then
            { b with available_copies := b.available_copies + 1 } else b),
         records := closeFirst s.records p bid now,
         next_id := s.next_id }, true,
       "Successfully returned \"" ++ book.title ++ "\". Return date: " ++
         fmtDate now ++ ".") := by
  have hmem := List.mem_of_find?_eq_some hfind
  have hbid : rec.book_id = bid := by simpa using List.find?_some hfind
  rw [get_patron_borrowed_books, List.mem_filter] at hmem
  obtain ⟨hmem, hflt⟩ := hmem
  simp only [Bool.and_eq_true, decide_eq_true_eq] at hflt
  have hany : s.records.any (fun r =>
      r.patron_id = p && r.book_id = bid && r.return_date = none) = true := by
    refine List.any_eq_true.mpr ⟨rec, hmem, ?_⟩
    simp [hflt.1, hflt.2, hbid]
  unfold return_book_by_patron
  rw [hp, hbook, hfind]
  simp only [Bool.false_eq_true, if_false]
  simp only [update_borrow_record_return_date, hany, if_true]
  simp [update_book_availability, any_id_of_get s bid book hbook]

theorem return_success_inv (s : LibraryState) (now : ℚ) (p : String)
    (bid : Int) (h : (return_book_by_patron s now p bid).2.1 = true) :
    invalidPatron p = false ∧ ∃ book rec, get_book_by_id s bid = some book ∧
      (get_patron_borrowed_books s p).find?
        (fun r => r.book_id = bid) = some rec := by
  unfold return_book_by_patron at h
  split at h
  · simp at h
  · rename_i hp
    split at h
    · simp at h
    · rename_i book hbook
      split at h
      · simp at h
      · rename_i rec hfind
        exact ⟨by simpa using hp, book, rec, hbook, hfind⟩

theorem return_no_record (s : LibraryState) (now : ℚ) (p : String)
    (bid : Int) (book : Book)
    (hp : invalidPatron p = false)
    (hbook : get_book_by_id s bid = some book)
    (hfind : (get_patron_borrowed_books s p).find?
      (fun r => r.book_id = bid) = none) :
    return_book_by_patron s now p bid =
      (s, false, "No borrowing record found for this patron and book.") := by
  unfold return_book_by_patron
  rw [hp, hbook, hfind]
  simp

/-! ## Concrete fixtures used to instantiate the theorems -/

/-- A catalog book: 3 copies, 2 available. -/
def exBook : Book :=
  { id := 1, title := "B", author := "A", isbn := "1234567890123",
    total_copies := 3, available_copies := 2 }

/-- An open borrow record of patron 123456 for book 1, due at time 14. -/
def exRecord : BorrowRecord :=
  { patron_id := "123456", book_id := 1, borrow_date := 0, due_date := 14,
    return_date := none }

/-- Store with one book and one open borrow record. -/
def exState : LibraryState :=
  { books := [exBook], records := [exRecord], next_id := 2 }

/-- Store with one book and no borrow records. -/
def cleanState : LibraryState :=
  { books := [exBook], records := [], next_id := 2 }

/-- Store in which patron 123456 already holds five open borrow records. -/
def limitState : LibraryState :=
  { books := [exBook],
    records :=
      [{ patron_id := "123456", book_id := 11, borrow_date := 0, due_date := 14,
         return_date := none },
       { patron_id := "123456", book_id := 12, borrow_date := 0, due_date := 14,
         return_date := none },
       { patron_id := "123456", book_id := 13, borrow_date := 0, due_date := 14,
         return_date := none },
       { patron_id := "123456", book_id := 14, borrow_date := 0, due_date := 14,
         return_date := none },
       { patron_id := "123456", book_id := 15, borrow_date := 0, due_date := 14,
         return_date := none }],
    next_id := 2 }

/-! ## Claim theorems -/

/-- C1: for a valid 6-digit patron id, an existing book, and a matching
unreturned record whose due date is on or before the current time,
`calculate_late_fee_for_book` reports `days_overdue = ⌊now − due⌋` and a fee
of $0 for 0 days, days × $0.50 for 1–7 days, and $3.50 + (days − 7) × $1.00
capped at $15.00 beyond that, with status `"Success"` at 0 days and
`"Overdue by N days"` otherwise. -/
theorem C1_fee_schedule (s : LibraryState) (now : ℚ) (p : String) (bid : Int)
    (book : Book) (r : BorrowRecord)
    (hp : invalidPatron p = false)
    (hbook : get_book_by_id s bid = some book)
    (hfind : (get_patron_borrowed_books s p).find?
      (fun x => x.book_id = bid) = some r)
    (hdue : r.due_date ≤ now) :
    (calculate_late_fee_for_book s now p bid).days_overdue =
      ⌊now - r.due_date⌋ ∧
    (calculate_late_fee_for_book s now p bid).fee_amount =
      (if ⌊now - r.due_date⌋ = 0 then 0
       else if ⌊now - r.due_date⌋ ≤ 7 then
         ((⌊now - r.due_date⌋ : ℤ) : ℚ) * (1/2)
       else min ((35/10 : ℚ) + (((⌊now - r.due_date⌋ : ℤ) : ℚ) - 7) * 1) 15) ∧
    (calculate_late_fee_for_book s now p bid).status =
      (if ⌊now - r.due_date⌋ = 0 then "Success"
       else "Overdue by " ++ toString ⌊now - r.due_date⌋ ++ " days") := by
  have h0 : 0 ≤ ⌊now - r.due_date⌋ := Int.floor_nonneg.mpr (by linarith)
  rw [calculate_eq_calcRecordFee s now p bid book r hp hbook hfind,
    calcRecordFee_eq now r h0]
  refine ⟨rfl, ?_, rfl⟩
  show min (if ⌊now - r.due_date⌋ ≤ 7 then
      ((⌊now - r.due_date⌋ : ℤ) : ℚ) * (1/2)
      else 7 * (1/2) + (((⌊now - r.due_date⌋ : ℤ) : ℚ) - 7) * 1) 15 =
    (if ⌊now - r.due_date⌋ = 0 then 0
     else if ⌊now - r.due_date⌋ ≤ 7 then
       ((⌊now - r.due_date⌋ : ℤ) : ℚ) * (1/2)
     else min ((35/10 : ℚ) + (((⌊now - r.due_date⌋ : ℤ) : ℚ) - 7) * 1) 15)
  by_cases hz : ⌊now - r.due_date⌋ = 0
  · rw [hz]
    norm_num
  · rw [if_neg hz]
    by_cases h7 : ⌊now - r.due_date⌋ ≤ 7
    · rw [if_pos h7, if_pos h7]
      refine min_eq_left ?_
      have h7q : ((⌊now - r.due_date⌋ : ℤ) : ℚ) ≤ 7 := by exact_mod_cast h7
      linarith
    · rw [if_neg h7, if_neg h7]
      congr 1
      ring

/-- Witness for C1 at the fixture store, 10 days past due. -/
theorem C1_fee_schedule_witness :
    (calculate_late_fee_for_book exState 24 "123456" 1).days_overdue =
      ⌊(24 : ℚ) - exRecord.due_date⌋ ∧
    (calculate_late_fee_for_book exState 24 "123456" 1).fee_amount =
      (if ⌊(24 : ℚ) - exRecord.due_date⌋ = 0 then 0
       else if ⌊(24 : ℚ) - exRecord.due_date⌋ ≤ 7 then
         ((⌊(24 : ℚ) - exRecord.due_date⌋ : ℤ) : ℚ) * (1/2)
       else min ((35/10 : ℚ) +
         (((⌊(24 : ℚ) - exRecord.due_date⌋ : ℤ) : ℚ) - 7) * 1) 15) ∧
    (calculate_late_fee_for_book exState 24 "123456" 1).status =
      (if ⌊(24 : ℚ) - exRecord.due_date⌋ = 0 then "Success"
       else "Overdue by " ++ toString ⌊(24 : ℚ) - exRecord.due_date⌋ ++
         " days") :=
  C1_fee_schedule exState 24 "123456" 1 exBook exRecord (by decide)
    (by decide) (by decide) (by decide)

/-- C4: a valid patron holding five or more unreturned records is refused a
borrow for every book id — the call returns `false` with some reason and
leaves the store untouched. -/
theorem C4_borrow_limit (s : LibraryState) (now : ℚ) (p : String) (bid : Int)
    (hp : invalidPatron p = false)
    (hcount : 5 ≤ get_patron_borrow_count s p) :
    (borrow_book_by_patron s now p bid).1 = s ∧
    (borrow_book_by_patron s now p bid).2.1 = false := by
  unfold borrow_book_by_patron
  rw [hp]
  simp only [Bool.false_eq_true, if_false]
  split
  · exact ⟨rfl, rfl⟩
  · split_ifs <;> exact ⟨rfl, rfl⟩

/-- Witness for C4: the borrow is refused although the book is available. -/
theorem C4_borrow_limit_witness :
    (borrow_book_by_patron limitState 0 "123456" 1).1 = limitState ∧
    (borrow_book_by_patron limitState 0 "123456" 1).2.1 = false :=
  C4_borrow_limit limitState 0 "123456" 1 (by decide) (by decide)

/-- C9: `pay_late_fees` and `refund_late_fee_payment` never write to the
library store — the state either returns is the state it was given, for
every input and every gateway behaviour. -/
theorem C9_payments_pure (s : LibraryState) (now : ℚ) (p : String)
    (bid : Int) (gw gw2 : String → ℚ → GatewayAct) (t : PyTxn)
    (amt : PyAmount) :
    (pay_late_fees s now p bid gw).1 = s ∧
    (refund_late_fee_payment s t amt gw2).1 = s := by
  constructor
  · unfold pay_late_fees
    split
    · rfl
    · split <;> rfl
  · unfold refund_late_fee_payment
    split
    · rfl
    · split <;> rfl

theorem calcRecordFee_status_ne (now : ℚ) (r : BorrowRecord) :
    ¬ ((calcRecordFee now r).status = "Book not found." ∨
       (calcRecordFee now r).status = "No active borrowing record found.") := by
  simp only [calcRecordFee]
  by_cases h : max 0 ⌊now - r.due_date⌋ = 0
  · rw [if_pos h]
    decide
  · rw [if_neg h]
    rintro (h1 | h1)
    · exact overdue_ne_bnf _ h1
    · exact overdue_ne_noactive _ h1

/-- C8: on an unreturned overdue record, the per-record fee summed by
`get_patron_status_report` coincides with the `fee_amount` that
`calculate_late_fee_for_book` computes for the same record at the same
current time — the two duplicated tiered computations agree. -/
theorem C8_fee_duplication (s : LibraryState) (now : ℚ) (p : String)
    (bid : Int) (book : Book) (r : BorrowRecord)
    (hp : invalidPatron p = false)
    (hbook : get_book_by_id s bid = some book)
    (hfind : (get_patron_borrowed_books s p).find?
      (fun x => x.book_id = bid) = some r)
    (hover : record_is_overdue now r = true) :
    reportRecordFee now r = (calculate_late_fee_for_book s now p bid).fee_amount := by
  have hlt : r.due_date < now := by
    simpa [record_is_overdue] using hover
  have h0 : 0 ≤ ⌊now - r.due_date⌋ := Int.floor_nonneg.mpr (by linarith)
  rw [calculate_eq_calcRecordFee s now p bid book r hp hbook hfind,
    calcRecordFee_eq now r h0]
  simp [reportRecordFee]

/-- Witness for C8 at the fixture store, 10 days past due. -/
theorem C8_fee_duplication_witness :
    reportRecordFee 24 exRecord =
      (calculate_late_fee_for_book exState 24 "123456" 1).fee_amount :=
  C8_fee_duplication exState 24 "123456" 1 exBook exRecord (by decide)
    (by decide) (by decide) (by decide)

/-- C6: with a valid patron, an existing book and an active borrow record,
a computed fee of at most zero makes `pay_late_fees` return success with
message "No late fees" before the gateway call is ever reached (so no
gateway is invoked, whatever its behaviour). -/
theorem C6_zero_fee_skips_gateway (s : LibraryState) (now : ℚ) (p : String)
    (bid : Int) (book : Book) (rec : BorrowRecord)
    (gw : String → ℚ → GatewayAct)
    (hp : invalidPatron p = false)
    (hbook : get_book_by_id s bid = some book)
    (hfind : (get_patron_borrowed_books s p).find?
      (fun r => r.book_id = bid) = some rec)
    (hfee : (calculate_late_fee_for_book s now p bid).fee_amount ≤ 0) :
    pay_late_fees_pre s now p bid = .inl (.okMsg "No late fees") ∧
    pay_late_fees s now p bid gw = (s, .okMsg "No late fees") := by
  have hcalc := calculate_eq_calcRecordFee s now p bid book rec hp hbook hfind
  rw [hcalc] at hfee
  have hpre : pay_late_fees_pre s now p bid = .inl (.okMsg "No late fees") := by
    unfold pay_late_fees_pre
    rw [hp, hbook]
    simp only [Bool.false_eq_true, if_false]
    rw [hcalc, if_neg (calcRecordFee_status_ne now rec), if_pos hfee]
  refine ⟨hpre, ?_⟩
  unfold pay_late_fees
  rw [hpre]

/-- Witness for C6 at the fixture store, exactly at the due time. -/
theorem C6_zero_fee_skips_gateway_witness :
    pay_late_fees_pre exState 14 "123456" 1 = .inl (.okMsg "No late fees") ∧
    pay_late_fees exState 14 "123456" 1 (fun _ _ => .ret .falsy) =
      (exState, .okMsg "No late fees") :=
  C6_zero_fee_skips_gateway exState 14 "123456" 1 exBook exRecord
    (fun _ _ => .ret .falsy) (by decide) (by decide) (by decide)
    (by
      rw [calculate_eq_calcRecordFee exState 14 "123456" 1 exBook exRecord
        (by decide) (by decide) (by decide),
        calcRecordFee_eq 14 exRecord (by norm_num [exRecord])]
      norm_num [exRecord])

/-- At the fixture store, 10 days past due, `pay_late_fees` reaches the
gateway call with a fee of $6.50. -/
theorem pay_pre_exState :
    pay_late_fees_pre exState 24 "123456" 1 = .inr ((13 : ℚ)/2, 10) := by
  have hcalc := calculate_eq_calcRecordFee exState 24 "123456" 1 exBook
    exRecord (by decide) (by decide) (by decide)
  unfold pay_late_fees_pre
  rw [show invalidPatron "123456" = false from by decide,
    show get_book_by_id exState 1 = some exBook from by decide]
  simp only [Bool.false_eq_true, if_false]
  rw [hcalc, if_neg (calcRecordFee_status_ne 24 exRecord),
    calcRecordFee_eq 24 exRecord (by norm_num [exRecord])]
  have hfloor : ⌊(24 : ℚ) - exRecord.due_date⌋ = 10 := by norm_num [exRecord]
  rw [hfloor]
  norm_num [min_def]

/-- C5 counterexample: a gateway response that is a mapping with
`status = "error"` but no `reason` key.  `pay_late_fees` then returns
failure with message `None` (Python), which is not the gateway's stated
reason (none was stated) and not the generic `"Payment failed"` message
the claim promises for malformed responses. -/
theorem C5_counterexample :
    pay_late_fees exState 24 "123456" 1
      (fun _ _ => .ret (.dict (RespDict.mk (some "error") none none none))) =
      (exState, .fail none) ∧
    PayOutcome.fail none ≠ .fail (some "Payment failed") := by
  constructor
  · unfold pay_late_fees
    rw [pay_pre_exState]
    simp [handlePaymentResp]
  · decide

/-- C5 (amended): once the gateway call is reached, a mapping response whose
status is not "success" yields failure whose message is the mapping's
`reason` field — the gateway's stated reason verbatim when present, and
Python `None` when absent; a falsy non-mapping response yields failure with
the generic message "Payment failed"; a truthy non-mapping response raises
an uncaught `AttributeError` instead of returning. -/
theorem C5_gateway_failure_relay (s : LibraryState) (now : ℚ) (p : String)
    (bid : Int) (fd : ℚ × Int) (d : RespDict)
    (hpre : pay_late_fees_pre s now p bid = .inr fd) :
    (d.status ≠ some "success" →
      pay_late_fees s now p bid (fun _ _ => .ret (.dict d)) =
        (s, .fail d.reason)) ∧
    pay_late_fees s now p bid (fun _ _ => .ret .falsy) =
      (s, .fail (some "Payment failed")) ∧
    pay_late_fees s now p bid (fun _ _ => .ret .truthyNonDict) =
      (s, .raised "AttributeError") := by
  unfold pay_late_fees
  rw [hpre]
  refine ⟨?_, rfl, rfl⟩
  intro hd
  simp [handlePaymentResp, hd]

/-- Witness for the amended C5: a declined charge with a stated reason is
relayed verbatim. -/
theorem C5_gateway_failure_relay_witness :
    ((RespDict.mk (some "error") (some "DECLINED") none none).status ≠
        some "success" →
      pay_late_fees exState 24 "123456" 1 (fun _ _ => .ret (.dict
        (RespDict.mk (some "error") (some "DECLINED") none none))) =
        (exState, .fail (RespDict.mk (some "error") (some "DECLINED")
          none none).reason)) ∧
    pay_late_fees exState 24 "123456" 1 (fun _ _ => .ret .falsy) =
      (exState, .fail (some "Payment failed")) ∧
    pay_late_fees exState 24 "123456" 1 (fun _ _ => .ret .truthyNonDict) =
      (exState, .raised "AttributeError") :=
  C5_gateway_failure_relay exState 24 "123456" 1 ((13 : ℚ)/2, 10)
    (RespDict.mk (some "error") (some "DECLINED") none none) pay_pre_exState

/-- C7: `refund_late_fee_payment` rejects a non-string or blank transaction
id, an unparseable amount, and an amount ≤ 0 or > 15, each time failing
before the gateway call is reached; amount exactly 15 passes validation and
the gateway is invoked. -/
theorem C7_refund_validation (ts : String) (q : ℚ) (amtv : PyAmount)
    (s : LibraryState) (gw : String → ℚ → GatewayAct) :
    refund_pre .nonStr amtv = .inl (.fail (some "Invalid transaction")) ∧
    refund_pre (.str "") amtv = .inl (.fail (some "Invalid transaction")) ∧
    (ts ≠ "" → refund_pre (.str ts) .unparseable =
      .inl (.fail (some "Invalid amount"))) ∧
    (ts ≠ "" → q ≤ 0 ∨ 15 < q → refund_pre (.str ts) (.num q) =
      .inl (.fail (some "Amount must be >0 and â‰¤15"))) ∧
    (ts ≠ "" → q ≤ 0 ∨ 15 < q →
      refund_late_fee_payment s (.str ts) (.num q) gw =
        (s, .fail (some "Amount must be >0 and â‰¤15"))) ∧
    (ts ≠ "" → refund_pre (.str ts) (.num 15) = .inr (ts, 15)) := by
  refine ⟨rfl, rfl, ?_, ?_, ?_, ?_⟩
  · intro hts
    simp [refund_pre, hts]
  · intro hts hq
    simp only [refund_pre, if_neg hts, if_pos hq]
  · intro hts hq
    unfold refund_late_fee_payment
    simp only [refund_pre, if_neg hts, if_pos hq]
  · intro hts
    simp only [refund_pre, if_neg hts]
    rw [if_neg (by norm_num)]

/-- Witness for C7: amount 16 is rejected, amount 15 reaches the gateway. -/
theorem C7_refund_validation_witness :
    refund_pre .nonStr (.num 16) = .inl (.fail (some "Invalid transaction")) ∧
    refund_pre (.str "") (.num 16) =
      .inl (.fail (some "Invalid transaction")) ∧
    ("tx" ≠ "" → refund_pre (.str "tx") .unparseable =
      .inl (.fail (some "Invalid amount"))) ∧
    ("tx" ≠ "" → (16 : ℚ) ≤ 0 ∨ (15 : ℚ) < 16 →
      refund_pre (.str "tx") (.num 16) =
        .inl (.fail (some "Amount must be >0 and â‰¤15"))) ∧
    ("tx" ≠ "" → (16 : ℚ) ≤ 0 ∨ (15 : ℚ) < 16 →
      refund_late_fee_payment cleanState (.str "tx") (.num 16)
          (fun _ _ => .ret .falsy) =
        (cleanState, .fail (some "Amount must be >0 and â‰¤15"))) ∧
    ("tx" ≠ "" → refund_pre (.str "tx") (.num 15) = .inr ("tx", 15)) :=
  C7_refund_validation "tx" 16 (.num 16) cleanState (fun _ _ => .ret .falsy)

/-- C2: the invariant `available_copies = total_copies − unreturned records`
is preserved by every successful borrow and return; a successful borrow adds
exactly one unreturned record for the book and decrements its availability,
and a successful return closes exactly one and increments it. -/
theorem C2_availability_invariant (s : LibraryState) (now : ℚ) (p : String)
    (bid : Int) (hinv : availabilityInvariant s) :
    ((borrow_book_by_patron s now p bid).2.1 = true →
      availabilityInvariant (borrow_book_by_patron s now p bid).1 ∧
      unreturnedCount (borrow_book_by_patron s now p bid).1.records bid =
        unreturnedCount s.records bid + 1 ∧
      ∀ book, get_book_by_id s bid = some book →
        get_book_by_id (borrow_book_by_patron s now p bid).1 bid =
          some { book with available_copies := book.available_copies - 1 }) ∧
    ((return_book_by_patron s now p bid).2.1 = true →
      availabilityInvariant (return_book_by_patron s now p bid).1 ∧
      unreturnedCount s.records bid =
        unreturnedCount (return_book_by_patron s now p bid).1.records bid + 1 ∧
      ∀ book, get_book_by_id s bid = some book →
        get_book_by_id (return_book_by_patron s now p bid).1 bid =
          some { book with available_copies := book.available_copies + 1 }) := by
  constructor
  · intro h
    obtain ⟨hp, book, hbook, havail, hcount⟩ := borrow_success_inv s now p bid h
    rw [borrow_success_def s now p bid book hp hbook havail hcount]
    refine ⟨?_, ?_, ?_⟩
    · intro b' hb'
      rw [List.mem_map] at hb'
      obtain ⟨b, hb, rfl⟩ := hb'
      have hbval := hinv b hb
      by_cases hid : b.id = bid
      · rw [if_pos hid]
        show b.available_copies + (-1) =
          b.total_copies - (unreturnedCount (s.records ++ _) b.id : ℤ)
        rw [unreturnedCount_append, if_pos ⟨hid.symm, rfl⟩]
        push_cast
        omega
      · rw [if_neg hid]
        show b.available_copies =
          b.total_copies - (unreturnedCount (s.records ++ _) b.id : ℤ)
        rw [unreturnedCount_append,
          if_neg (by rintro ⟨e, _⟩; exact hid e.symm), Nat.add_zero]
        exact hbval
    · show unreturnedCount (s.records ++ _) bid = _
      rw [unreturnedCount_append, if_pos ⟨rfl, rfl⟩]
    · intro book' hbook'
      rw [hbook] at hbook'
      obtain rfl : book = book' := by
        simpa using hbook'
      show List.find? _ _ = _
      rw [get_book_by_id_map_update s bid (-1) book hbook]
      rw [show book.available_copies + (-1) = book.available_copies - 1 by
        ring]
  · intro h
    obtain ⟨hp, book, rec, hbook, hfind⟩ := return_success_inv s now p bid h
    have hmem0 := List.mem_of_find?_eq_some hfind
    have hbid : rec.book_id = bid := by simpa using List.find?_some hfind
    rw [get_patron_borrowed_books, List.mem_filter] at hmem0
    obtain ⟨hmem, hflt⟩ := hmem0
    simp only [Bool.and_eq_true, decide_eq_true_eq] at hflt
    have hex : ∃ r ∈ s.records, r.patron_id = p ∧ r.book_id = bid ∧
        r.return_date = none := ⟨rec, hmem, hflt.1, hbid, hflt.2⟩
    have hcnt := closeFirst_count s.records p bid now hex
    rw [return_success_def s now p bid book rec hp hbook hfind]
    refine ⟨?_, ?_, ?_⟩
    · intro b' hb'
      rw [List.mem_map] at hb'
      obtain ⟨b, hb, rfl⟩ := hb'
      have hbval := hinv b hb
      by_cases hid : b.id = bid
      · rw [if_pos hid]
        show b.available_copies + 1 =
          b.total_copies - (unreturnedCount (closeFirst s.records p bid now)
            b.id : ℤ)
        rw [hid] at hbval ⊢
        omega
      · rw [if_neg hid]
        show b.available_copies =
          b.total_copies - (unreturnedCount (closeFirst s.records p bid now)
            b.id : ℤ)
        rw [closeFirst_count_other s.records p bid b.id now
          (fun e => hid e.symm)]
        exact hbval
    · exact hcnt
    · intro book' hbook'
      rw [hbook] at hbook'
      obtain rfl : book = book' := by
        simpa using hbook'
      show List.find? _ _ = _
      exact get_book_by_id_map_update s bid 1 book hbook

/-- Witness for C2 at the fixture store, which satisfies the invariant. -/
theorem C2_availability_invariant_witness :
    ((borrow_book_by_patron exState 0 "123456" 1).2.1 = true →
      availabilityInvariant (borrow_book_by_patron exState 0 "123456" 1).1 ∧
      unreturnedCount (borrow_book_by_patron exState 0 "123456" 1).1.records
          1 = unreturnedCount exState.records 1 + 1 ∧
      ∀ book, get_book_by_id exState 1 = some book →
        get_book_by_id (borrow_book_by_patron exState 0 "123456" 1).1 1 =
          some { book with available_copies := book.available_copies - 1 }) ∧
    ((return_book_by_patron exState 0 "123456" 1).2.1 = true →
      availabilityInvariant (return_book_by_patron exState 0 "123456" 1).1 ∧
      unreturnedCount exState.records 1 =
        unreturnedCount (return_book_by_patron exState 0 "123456" 1).1.records
          1 + 1 ∧
      ∀ book, get_book_by_id exState 1 = some book →
        get_book_by_id (return_book_by_patron exState 0 "123456" 1).1 1 =
          some { book with available_copies := book.available_copies + 1 }) :=
  C2_availability_invariant exState 0 "123456" 1 (by
    intro b hb
    simp only [exState, List.mem_singleton] at hb
    subst hb
    decide)

theorem no_open_record_find (l : List BorrowRecord) (p : String) (bid : Int)
    (hclean : ∀ r ∈ l, ¬ (r.patron_id = p ∧ r.book_id = bid ∧
      r.return_date = none)) :
    (l.filter (fun r => r.patron_id = p && r.return_date = none)).find?
      (fun r => r.book_id = bid) = none := by
  refine List.find?_eq_none.mpr ?_
  intro x hx
  rw [List.mem_filter] at hx
  obtain ⟨hxl, hxf⟩ := hx
  simp only [Bool.and_eq_true, decide_eq_true_eq] at hxf
  simp only [decide_eq_true_eq]
  intro hxb
  exact hclean x hxl ⟨hxf.1, hxb, hxf.2⟩

theorem map_update_cancel (l : List Book) (bid : Int) :
    ((l.map (fun b => if b.id = bid then
        { b with available_copies := b.available_copies + (-1) } else b)).map
      (fun b => if b.id = bid then
        { b with available_copies := b.available_copies + 1 } else b)) = l := by
  induction l with
  | nil => rfl
  | cons b bs ih =>
    rw [List.map_cons, List.map_cons, ih]
    congr 1
    by_cases h : b.id = bid
    · rw [if_pos h, if_pos h]
      rw [show b.available_copies + (-1) + 1 = b.available_copies by ring]
    · rw [if_neg h, if_neg h]

/-- C3 counterexample: in a store where patron 123456 already holds an open
record for book 1, a fresh borrow of book 1 succeeds, its return succeeds —
and a second return of the same pair SUCCEEDS as well (it closes the older
record), where the claim promises a "no record found" failure. -/
theorem C3_counterexample :
    (borrow_book_by_patron exState 0 "123456" 1).2.1 = true ∧
    (return_book_by_patron
      (borrow_book_by_patron exState 0 "123456" 1).1 1 "123456" 1).2.1 =
      true ∧
    (return_book_by_patron (return_book_by_patron
      (borrow_book_by_patron exState 0 "123456" 1).1 1 "123456" 1).1 2
      "123456" 1).2.1 = true := by
  decide

/-- C3 (amended): if the borrow succeeds and the patron held no other open
record for the same (patron, book) pair beforehand, then the return
succeeds, the catalog (hence the book's `available_copies`) is restored
exactly to its pre-borrow state, and a second return of the same pair fails
with the "no record found" message. -/
theorem C3_round_trip (s : LibraryState) (now1 now2 now3 : ℚ) (p : String)
    (bid : Int)
    (hb : (borrow_book_by_patron s now1 p bid).2.1 = true)
    (hclean : ∀ r ∈ s.records, ¬ (r.patron_id = p ∧ r.book_id = bid ∧
      r.return_date = none)) :
    (return_book_by_patron (borrow_book_by_patron s now1 p bid).1 now2 p
      bid).2.1 = true ∧
    (return_book_by_patron (borrow_book_by_patron s now1 p bid).1 now2 p
      bid).1.books = s.books ∧
    return_book_by_patron (return_book_by_patron
        (borrow_book_by_patron s now1 p bid).1 now2 p bid).1 now3 p bid =
      ((return_book_by_patron (borrow_book_by_patron s now1 p bid).1 now2 p
        bid).1, false,
       "No borrowing record found for this patron and book.") := by
  obtain ⟨hp, book, hbook, havail, hcount⟩ := borrow_success_inv s now1 p bid hb
  have hS1books : (borrow_book_by_patron s now1 p bid).1.books =
      s.books.map (fun b => if b.id = bid then
        { b with available_copies := b.available_copies + (-1) } else b) := by
    rw [borrow_success_def s now1 p bid book hp hbook havail hcount]
  have hS1records : (borrow_book_by_patron s now1 p bid).1.records =
      s.records ++ [⟨p, bid, now1, now1 + 14, none⟩] := by
    rw [borrow_success_def s now1 p bid book hp hbook havail hcount]
  have hbook1 : get_book_by_id (borrow_book_by_patron s now1 p bid).1 bid =
      some { book with available_copies := book.available_copies + (-1) } := by
    unfold get_book_by_id
    rw [hS1books]
    unfold get_book_by_id at hbook
    exact find?_map_update s.books bid (-1) book hbook
  have hfind1 : (get_patron_borrowed_books
      (borrow_book_by_patron s now1 p bid).1 p).find?
      (fun r => r.book_id = bid) =
      some ⟨p, bid, now1, now1 + 14, none⟩ := by
    unfold get_patron_borrowed_books
    rw [hS1records, List.filter_append, List.find?_append,
      no_open_record_find s.records p bid hclean]
    simp
  have hret := return_success_def (borrow_book_by_patron s now1 p bid).1 now2
    p bid { book with available_copies := book.available_copies + (-1) }
    ⟨p, bid, now1, now1 + 14, none⟩ hp hbook1 hfind1
  have hS2books : (return_book_by_patron
      (borrow_book_by_patron s now1 p bid).1 now2 p bid).1.books =
      s.books := by
    rw [hret]
    show (borrow_book_by_patron s now1 p bid).1.books.map _ = s.books
    rw [hS1books]
    exact map_update_cancel s.books bid
  have hS2records : (return_book_by_patron
      (borrow_book_by_patron s now1 p bid).1 now2 p bid).1.records =
      s.records ++ [⟨p, bid, now1, now1 + 14, some now2⟩] := by
    rw [hret]
    show closeFirst (borrow_book_by_patron s now1 p bid).1.records p bid now2
      = _
    rw [hS1records]
    exact closeFirst_append s.records _ p bid now2 hclean ⟨rfl, rfl, rfl⟩
  refine ⟨by rw [hret], hS2books, ?_⟩
  have hbook2 : get_book_by_id (return_book_by_patron
      (borrow_book_by_patron s now1 p bid).1 now2 p bid).1 bid =
      some book := by
    unfold get_book_by_id
    rw [hS2books]
    exact hbook
  have hfind2 : (get_patron_borrowed_books (return_book_by_patron
      (borrow_book_by_patron s now1 p bid).1 now2 p bid).1 p).find?
      (fun r => r.book_id = bid) = none := by
    unfold get_patron_borrowed_books
    rw [hS2records, List.filter_append, List.find?_append,
      no_open_record_find s.records p bid hclean]
    simp
  exact return_no_record _ now3 p bid book hp hbook2 hfind2

/-- Witness for the amended C3 at the fixture store with no prior records. -/
theorem C3_round_trip_witness :
    (return_book_by_patron (borrow_book_by_patron cleanState 0 "123456" 1).1
      1 "123456" 1).2.1 = true ∧
    (return_book_by_patron (borrow_book_by_patron cleanState 0 "123456" 1).1
      1 "123456" 1).1.books = cleanState.books ∧
    return_book_by_patron (return_book_by_patron
        (borrow_book_by_patron cleanState 0 "123456" 1).1 1 "123456" 1).1 2
        "123456" 1 =
      ((return_book_by_patron (borrow_book_by_patron cleanState 0 "123456"
        1).1 1 "123456" 1).1, false,
       "No borrowing record found for this patron and book.") :=
  C3_round_trip cleanState 0 1 2 "123456" 1 (by decide)
    (by simp [cleanState])

/-- C10: `add_book_to_catalog` strips surrounding whitespace from title and
author before validating and storing: a whitespace-only title or author is
rejected as blank, the 200/100-character limits are checked on the trimmed
strings, and a successful insert stores the trimmed title and author. -/
theorem C10_add_book_trims (s : LibraryState) (title author isbn : String)
    (n : Int) :
    (pyStrip title = "" →
      add_book_to_catalog s title author isbn n =
        (s, false, "Title is required.")) ∧
    (pyStrip title ≠ "" → (pyStrip title).length ≤ 200 →
      pyStrip author = "" →
      add_book_to_catalog s title author isbn n =
        (s, false, "Author is required.")) ∧
    (pyStrip title ≠ "" →
      ((add_book_to_catalog s title author isbn n).2.2 =
        "Title must be less than 200 characters." ↔
        200 < (pyStrip title).length)) ∧
    (pyStrip title ≠ "" → (pyStrip title).length ≤ 200 →
      pyStrip author ≠ "" →
      ((add_book_to_catalog s title author isbn n).2.2 =
        "Author must be less than 100 characters." ↔
        100 < (pyStrip author).length)) ∧
    ((add_book_to_catalog s title author isbn n).2.1 = true →
      (add_book_to_catalog s title author isbn n).1.books =
        s.books ++ [⟨s.next_id, pyStrip title, pyStrip author, isbn, n,
          n⟩]) := by
  have htc : pyStrip title ≠ "" → ¬ (title = "" ∨ pyStrip title = "") := by
    rintro h (rfl | h2)
    · exact h rfl
    · exact h h2
  have hac : pyStrip author ≠ "" → ¬ (author = "" ∨ pyStrip author = "") := by
    rintro h (rfl | h2)
    · exact h rfl
    · exact h h2
  refine ⟨?_, ?_, ?_, ?_, ?_⟩
  · intro h1
    unfold add_book_to_catalog
    rw [if_pos (Or.inr h1)]
  · intro h1 h2 h3
    unfold add_book_to_catalog
    rw [if_neg (htc h1), if_neg (by omega : ¬ (pyStrip title).length > 200),
      if_pos (Or.inr h3)]
  · intro h1
    by_cases hlen : 200 < (pyStrip title).length
    · refine ⟨fun _ => hlen, fun _ => ?_⟩
      unfold add_book_to_catalog
      rw [if_neg (htc h1), if_pos hlen]
    · refine ⟨fun hmsg => ?_, fun hlen2 => absurd hlen2 hlen⟩
      exfalso
      unfold add_book_to_catalog at hmsg
      rw [if_neg (htc h1), if_neg hlen] at hmsg
      split_ifs at hmsg <;> simp_all
      rw [String.append_assoc] at hmsg
      exact strne_of_head "Book \"" 'B' _ rfl _ (by decide) _ hmsg
  · intro h1 h2 h3
    by_cases hlen : 100 < (pyStrip author).length
    · refine ⟨fun _ => hlen, fun _ => ?_⟩
      unfold add_book_to_catalog
      rw [if_neg (htc h1), if_neg (by omega : ¬ (pyStrip title).length > 200),
        if_neg (hac h3), if_pos hlen]
    · refine ⟨fun hmsg => ?_, fun hlen2 => absurd hlen2 hlen⟩
      exfalso
      unfold add_book_to_catalog at hmsg
      rw [if_neg (htc h1), if_neg (by omega : ¬ (pyStrip title).length > 200),
        if_neg (hac h3), if_neg hlen] at hmsg
      split_ifs at hmsg <;> simp_all
      rw [String.append_assoc] at hmsg
      exact strne_of_head "Book \"" 'B' _ rfl _ (by decide) _ hmsg
  · intro hsucc
    unfold add_book_to_catalog at hsucc ⊢
    split_ifs at hsucc ⊢ <;> simp_all [insert_book]

/-- Witness for C10: padded inputs are trimmed for validation and storage. -/
theorem C10_add_book_trims_witness :
    (pyStrip "  Winnie  " = "" →
      add_book_to_catalog cleanState "  Winnie  " " A. Milne " "9999999999999"
        2 = (cleanState, false, "Title is required.")) ∧
    (pyStrip "  Winnie  " ≠ "" → (pyStrip "  Winnie  ").length ≤ 200 →
      pyStrip " A. Milne " = "" →
      add_book_to_catalog cleanState "  Winnie  " " A. Milne " "9999999999999"
        2 = (cleanState, false, "Author is required.")) ∧
    (pyStrip "  Winnie  " ≠ "" →
      ((add_book_to_catalog cleanState "  Winnie  " " A. Milne "
        "9999999999999" 2).2.2 =
        "Title must be less than 200 characters." ↔
        200 < (pyStrip "  Winnie  ").length)) ∧
    (pyStrip "  Winnie  " ≠ "" → (pyStrip "  Winnie  ").length ≤ 200 →
      pyStrip " A. Milne " ≠ "" →
      ((add_book_to_catalog cleanState "  Winnie  " " A. Milne "
        "9999999999999" 2).2.2 =
        "Author must be less than 100 characters." ↔
        100 < (pyStrip " A. Milne ").length)) ∧
    ((add_book_to_catalog cleanState "  Winnie  " " A. Milne "
        "9999999999999" 2).2.1 = true →
      (add_book_to_catalog cleanState "  Winnie  " " A. Milne "
        "9999999999999" 2).1.books =
        cleanState.books ++ [⟨cleanState.next_id, pyStrip "  Winnie  ",
          pyStrip " A. Milne ", "9999999999999", 2, 2⟩]) :=
  C10_add_book_trims cleanState "  Winnie  " " A. Milne " "9999999999999" 2

end LibraryMS
